import Mathlib

/-!
Shallow embedding of `lpinner/digitalearthau` (two source files:
`digitalearthau/stacker.py` and `scripts/submit-tile-sync.py`) together
with theorems settling the specification claims about them.

Conventions of the embedding:
* Python ints are `Nat`/`Int` (Python integers are arbitrary precision).
* Python's `math.ceil(a / b)` on the integer inputs occurring here is
  embedded as exact ceiling division `ceilDiv`; the float divisions in
  `estimate_job_size` are exact for the argument ranges the theorems use.
* Fallible code returns `Option`/`Except`; a Python exception is `none`
  or `.error`.
* External collaborators (PBS `qsub`, the datacube index, the filesystem)
  are oracles passed in as function arguments.
-/

namespace DEA

/-- Ceiling division on naturals: `ceilDiv a b = ⌈a / b⌉` for `b > 0`. -/
def ceilDiv (a b : Nat) : Nat := (a + b - 1) / b

theorem ceilDiv_eq_zero_left (b : Nat) : ceilDiv 0 b = 0 := by
  unfold ceilDiv
  rcases Nat.eq_zero_or_pos b with hb | hb
  · subst hb; rfl
  · exact Nat.div_eq_of_lt (by omega)

theorem one_le_ceilDiv (a b : Nat) (ha : 1 ≤ a) (hb : 0 < b) : 1 ≤ ceilDiv a b := by
  unfold ceilDiv
  have : b ≤ a + b - 1 := by omega
  exact (Nat.one_le_div_iff hb).mpr this

/-! ### `digitalearthau/stacker.py`, `estimate_job_size`

```python
def estimate_job_size(num_tasks):
    max_nodes = 20
    cores_per_node = 16
    task_time_mins = 5
    if num_tasks < max_nodes * cores_per_node:
        nodes = ceil(num_tasks / cores_per_node / 4)
    else:
        nodes = max_nodes
    tasks_per_cpu = ceil(num_tasks / (nodes * cores_per_node))
    wall_time_mins = '{mins}m'.format(mins=(task_time_mins * tasks_per_cpu))
    #    return nodes, wall_time_mins
    return 1, '120m'
```

`ceil(n / 16 / 4)` equals `ceilDiv n 64` exactly (the float quotients are
exact for `n < 320`, the only range in which this branch runs).  When
`num_tasks = 0` the first branch yields `nodes = 0` and the
`tasks_per_cpu` line divides by zero (`ZeroDivisionError`), modelled as
`none`.
-/

/-- The computation `estimate_job_size` performs up to and including the
commented-out `return nodes, wall_time_mins` line: the proportionally
scaled `(nodes, wall_time_mins)` pair, or `none` when the
`tasks_per_cpu` line raises `ZeroDivisionError`. -/
def estimate_job_size_internal (num_tasks : Nat) : Option (Nat × String) :=
  let max_nodes := 20
  let cores_per_node := 16
  let task_time_mins := 5
  let nodes :=
    if num_tasks < max_nodes * cores_per_node then
      ceilDiv num_tasks (cores_per_node * 4)
    else
      max_nodes
  if nodes * cores_per_node = 0 then
    none
  else
    let tasks_per_cpu := ceilDiv num_tasks (nodes * cores_per_node)
    let wall_time_mins := toString (task_time_mins * tasks_per_cpu) ++ "m"
    some (nodes, wall_time_mins)

/-- `estimate_job_size`: runs the whole internal computation (so it
raises exactly when the internal computation raises), discards the
result, and returns the fixed override `(1, "120m")`. -/
def estimate_job_size (num_tasks : Nat) : Option (Nat × String) :=
  (estimate_job_size_internal num_tasks).map (fun _ => (1, "120m"))

/-- The node count the spec's documented policy prescribes: below
`max_nodes * cores_per_node` tasks, one node per 4 cores' worth of tasks
rounded up, otherwise capped at `max_nodes = 20`.  Written from the
spec's words (§4.1) for comparison with the source computation. -/
def specNodes (n : Nat) : Nat :=
  if n < 20 * 16 then ceilDiv n (16 * 4) else 20

/-- The wall-time minutes the spec's documented policy prescribes:
`tasks_per_core * per_task_minutes` with
`tasks_per_core = ceil(count / (nodes * cores_per_node))`. -/
def specWalltimeMins (n : Nat) : Nat :=
  5 * ceilDiv n (specNodes n * 16)

theorem estimate_job_size_internal_pos (n : Nat) (hn : 1 ≤ n) :
    estimate_job_size_internal n = some (specNodes n, toString (specWalltimeMins n) ++ "m") := by
  unfold estimate_job_size_internal specWalltimeMins specNodes
  by_cases h : n < 20 * 16
  · have hpos : 1 ≤ ceilDiv n (16 * 4) := one_le_ceilDiv n (16 * 4) hn (by omega)
    have hne : ceilDiv n (16 * 4) * 16 ≠ 0 := by
      intro hc
      omega
    simp [h, hne]
  · simp [h]

theorem estimate_job_size_internal_zero : estimate_job_size_internal 0 = none := by
  unfold estimate_job_size_internal
  simp [ceilDiv]

/-- C1 (amended): for every task count `n ≥ 1`, `estimate_job_size n`
returns exactly the override pair `(1, "120m")`, regardless of the
proportional-scaling computation.  (At `n = 0` the function raises
instead of returning, so the claim's "every non-negative count" fails.) -/
theorem estimate_job_size_override_pos (n : Nat) (hn : 1 ≤ n) :
    estimate_job_size n = some (1, "120m") := by
  unfold estimate_job_size
  rw [estimate_job_size_internal_pos n hn]
  rfl

/-- C1 witness: the amended claim holds at the concrete count 64. -/
theorem estimate_job_size_override_pos_witness :
    1 ≤ 64 ∧ estimate_job_size 64 = some (1, "120m") :=
  ⟨by decide, estimate_job_size_override_pos 64 (by decide)⟩

/-- C1 counterexample: at task count 0 the function does not return
`(1, "120m")`; the discarded scaling computation divides by zero
(`nodes = 0`), so the call raises `ZeroDivisionError` (modelled `none`). -/
theorem estimate_job_size_override_fails_at_zero :
    estimate_job_size 0 = none ∧ estimate_job_size 0 ≠ some (1, "120m") := by
  constructor
  · unfold estimate_job_size
    rw [estimate_job_size_internal_zero]
    rfl
  · unfold estimate_job_size
    rw [estimate_job_size_internal_zero]
    simp

/-- C2 (amended): `estimate_job_size` is total and error-free on every
task count `n ≥ 1`; totality at `n = 0` fails (see counterexample). -/
theorem estimate_job_size_total_pos (n : Nat) (hn : 1 ≤ n) :
    (estimate_job_size n).isSome = true := by
  unfold estimate_job_size
  rw [estimate_job_size_internal_pos n hn]
  rfl

/-- C2 witness: the amended totality claim holds at the concrete count 1. -/
theorem estimate_job_size_total_pos_witness :
    1 ≤ 1 ∧ (estimate_job_size 1).isSome = true :=
  ⟨by decide, estimate_job_size_total_pos 1 (by decide)⟩

/-- C2 counterexample: at task count 0 the internal tasks-per-core
computation divides by zero (the proportional branch yields `nodes = 0`,
and `ceil(0 / (0 * 16))` raises `ZeroDivisionError` in Python), so the
call produces no value. -/
theorem estimate_job_size_not_total_at_zero :
    (estimate_job_size 0).isSome = false := by
  unfold estimate_job_size
  rw [estimate_job_size_internal_zero]
  rfl

/-- C3 (amended): for every task count `n ≥ 1` the internally computed
(pre-override) pair follows the documented formula — `nodes` is
`ceil(n/16/4)` below the `20 * 16` threshold and `20` above it, and the
wall time is `ceil(n / (nodes * 16)) * 5` minutes; in particular the
proportional path at `n = 64` gives 1 node.  (At `n = 0` the wall-time
computation raises instead of producing the formula's values.) -/
theorem estimate_job_size_internal_matches_formula (n : Nat) (hn : 1 ≤ n) :
    estimate_job_size_internal n = some (specNodes n, toString (specWalltimeMins n) ++ "m")
      ∧ (estimate_job_size_internal 64).map Prod.fst = some 1 := by
  refine ⟨estimate_job_size_internal_pos n hn, ?_⟩
  rw [estimate_job_size_internal_pos 64 (by decide)]
  decide

/-- C3 witness: the amended claim instantiated at the concrete count 64:
the internal computation gives 1 node and a 20-minute wall time
(`ceil(64/16) = 4` tasks per core at 5 minutes each). -/
theorem estimate_job_size_internal_matches_formula_witness :
    1 ≤ 64
      ∧ estimate_job_size_internal 64 = some (specNodes 64, toString (specWalltimeMins 64) ++ "m")
      ∧ (estimate_job_size_internal 64).map Prod.fst = some 1 :=
  ⟨by decide, estimate_job_size_internal_matches_formula 64 (by decide)⟩

/-- C3 counterexample: at task count 0 the internal computation produces
no value at all (division by zero), so it cannot equal the formula's
prescription there. -/
theorem estimate_job_size_internal_formula_fails_at_zero :
    estimate_job_size_internal 0 = none
      ∧ estimate_job_size_internal 0 ≠ some (specNodes 0, toString (specWalltimeMins 0) ++ "m") := by
  refine ⟨estimate_job_size_internal_zero, ?_⟩
  rw [estimate_job_size_internal_zero]
  simp

/-! ### `digitalearthau/stacker.py`, the `generate` stage

```python
    if not num_tasks_saved:
        _LOG.info("No tasks. Finishing.")
        sys.exit(0)
    nodes, walltime = estimate_job_size(num_tasks_saved)
    ...
    if no_qsub:
        return 0
    submit_subjob(name='run', ...)
```

`sys.exit(0)` references the module-level name `sys`, so its behaviour
depends on the names actually bound at module level of `stacker.py`.
`stackerModuleNames` lists every name the import block (lines 23-42) and
the module body bind; `sys` is not a Python builtin, so if it is absent
the line raises `NameError` and the process exits non-zero. -/

/-- The module-level names bound in `digitalearthau/stacker.py`:
the import block plus the definitions in the module body. -/
def stackerModuleNames : List String :=
  ["logging", "datetime", "partial", "ceil", "Path", "Tuple", "click",
   "Query", "Index", "ui", "task_app", "stacker", "__version__", "paths",
   "serialise", "with_qsub_runner", "QSubLauncher", "TaskRunner",
   "TaskDescription", "init_task_app", "submit_subjob",
   "tag_option", "_LOG", "APP_NAME", "cli", "submit", "generate",
   "_make_config_and_description", "estimate_job_size", "run"]

/-- Observable outcome of the `generate` stage. -/
inductive GenOutcome where
  | success (code : Nat)
  | raised (msg : String)
  | submittedRun (nodes : Nat) (walltime : String)
deriving DecidableEq

/-- The control flow of the `generate` stage after the external
`save_tasks` call returned `numTasksSaved`: on zero tasks the code
executes `sys.exit(0)`, which succeeds only if `sys` is a bound
module-level name; otherwise it estimates the job size and, unless
`--no-qsub` was given, submits the `run` job. -/
def generateStage (numTasksSaved : Nat) (noQsub : Bool) : GenOutcome :=
  if numTasksSaved = 0 then
    if stackerModuleNames.contains "sys" then
      GenOutcome.success 0
    else
      GenOutcome.raised "NameError: name sys is not defined"
  else
    match estimate_job_size numTasksSaved with
    | none => GenOutcome.raised "ZeroDivisionError: division by zero"
    | some (nodes, walltime) =>
      if noQsub then GenOutcome.success 0
      else GenOutcome.submittedRun nodes walltime

/-- C4: with zero tasks saved the `generate` stage submits no `run` job —
but it does not terminate with exit status 0 either: `stacker.py`
never imports `sys`, so the `sys.exit(0)` line raises `NameError` and
the process exits non-zero.  The first half of the claim holds, the
second is a code bug (the log line "No tasks. Finishing." shows exit 0
was the intent). -/
theorem generate_zero_tasks_raises_name_error :
    generateStage 0 false = GenOutcome.raised "NameError: name sys is not defined"
      ∧ generateStage 0 false ≠ GenOutcome.success 0
      ∧ ∀ nodes walltime, generateStage 0 false ≠ GenOutcome.submittedRun nodes walltime := by
  refine ⟨by decide, by decide, ?_⟩
  intro nodes walltime
  unfold generateStage
  simp [stackerModuleNames]

/-! ### `digitalearthau/stacker.py`, the `run` stage

```python
    if dry_run:
        task_app.check_existing_files(...)
        return 0
    ...
    try:
        runner(task_desc, tasks, task_func, process_func)
        _LOG.info("Runner finished normally, triggering shutdown.")
    finally:
        runner.stop()
```

The runner invocation is an external collaborator; its outcome (normal
return or raised exception) is an `Except String Unit` oracle.  The
`try`/`finally` statement is embedded by a combinator that always runs
the finaliser and then propagates the body outcome. -/

/-- Observable side effects of the `run` stage. -/
structure RunTrace where
  runnerCalled : Bool
  stopCalls : Nat
deriving DecidableEq

/-- Python `try`/`finally`: run the body, then the finaliser
(unconditionally), and propagate the body outcome — a normal value and a
raised exception alike. -/
def tryFinally {σ ε α : Type} (body : σ → σ × Except ε α) (finaliser : σ → σ)
    (s : σ) : σ × Except ε α :=
  let r := body s
  (finaliser r.1, r.2)

/-- The `run` stage control flow: on `--dry-run` it only checks existing
files and returns 0 (never touching the runner); otherwise it invokes
the runner inside `try`/`finally` with `runner.stop()` as finaliser. -/
def runStage (dryRun : Bool) (runnerOutcome : Except String Unit) (s : RunTrace) :
    RunTrace × Except String Nat :=
  if dryRun then
    (s, Except.ok 0)
  else
    tryFinally
      (fun st => ({ st with runnerCalled := true }, runnerOutcome.map (fun _ => 0)))
      (fun st => { st with stopCalls := st.stopCalls + 1 })
      s

/-- C7: whenever the `run` stage invokes the external task runner
(`dry_run` not set), `runner.stop()` fires on every exit path: exactly
once when the runner returns normally, and exactly once when it raises —
and in the latter case the exception still propagates after the stop. -/
theorem run_stage_stops_runner_on_all_paths (s : RunTrace) (e : String) :
    ((runStage false (Except.ok ()) s).1.stopCalls = s.stopCalls + 1)
      ∧ ((runStage false (Except.ok ()) s).1.runnerCalled = true)
      ∧ ((runStage false (Except.ok ()) s).2 = Except.ok 0)
      ∧ ((runStage false (Except.error e) s).1.stopCalls = s.stopCalls + 1)
      ∧ ((runStage false (Except.error e) s).1.runnerCalled = true)
      ∧ ((runStage false (Except.error e) s).2 = Except.error e) := by
  refine ⟨rfl, rfl, rfl, rfl, rfl, rfl⟩

/-! ### `scripts/submit-tile-sync.py`

The submitter (function `main`) lists tile folders, derives sorted
unique tile X values, and submits one job per tile value, chaining jobs
through `concurrent_jobs` slots:

```python
    last_job_slots = {}
    for i, tile_x in enumerate(tile_xs):
        if i == submit_limit:
            break
        ...
        if output_path.exists():
            continue
        last_job_id = last_job_slots.get(i % concurrent_jobs)
        ...
        job_id = submit_job(..., require_job_id=last_job_id)
        last_job_slots[i % concurrent_jobs] = job_id
        time.sleep(SUBMIT_THROTTLE_SECS)
```

External collaborators are oracles: `outputExists tile` models
`output_path.exists()` for the tile (the path is a fixed function of the
tile value within one run), and `q k` is the job id string returned by
the k-th `submit_job` call.  The slot dict is a function
`Nat → Option String` (`None` for an unassigned slot, as `dict.get`).
Python raises `ZeroDivisionError` on `i % 0`, so every theorem about the
loop assumes `0 < c`. -/

/-- Python `str.strip(chars)`: remove from both ends every character
contained in `cs`. -/
def pyStrip (cs : List Char) (s : String) : String :=
  String.mk (((s.data.dropWhile (fun ch => cs.contains ch)).reverse.dropWhile
    (fun ch => cs.contains ch)).reverse)

/-- The characters Python `str.strip()` removes by default: space, tab,
newline, carriage return, vertical tab, form feed. -/
def pyWhitespace : List Char :=
  [' ', Char.ofNat 9, Char.ofNat 10, Char.ofNat 13, Char.ofNat 11, Char.ofNat 12]

/-- `submit_job` turns the raw `qsub` output into the returned job id by
`output.decode('utf-8').strip(' \\n')`.  The Python literal contains an
escaped backslash, so the strip set is the three characters space,
backslash and the letter `n` — not the newline character. -/
def qsubOutputJobId (output : String) : String :=
  pyStrip [' ', '\\', 'n'] output

/-- The `-W depend=afterok:` arguments `submit_job` adds when
`require_job_id` is truthy (Python: `None` and the empty string are
falsy), with `str(require_job_id).strip()` applied to the id. -/
def dependArgs : Option String → List String
  | none => []
  | some j => if j = "" then [] else ["-W", "depend=afterok:" ++ pyStrip pyWhitespace j]

/-- One submission the loop performed: its enumeration index, the tile
value, the `require_job_id` dependency passed to `submit_job`, and the
job id `submit_job` returned. -/
structure Submission where
  index : Nat
  tileX : Int
  dep : Option String
  jobId : String
deriving DecidableEq

/-- Loop state: the `last_job_slots` dict and the count of `submit_job`
calls made so far (used to index the job-id oracle). -/
structure LoopState where
  slots : Nat → Option String
  nextJob : Nat

/-- The submission loop of `main`, returning the chronological list of
submissions made.  `c` is `concurrent_jobs`, `limit` is `submit_limit`,
`i` the enumeration index. -/
def go (c limit : Nat) (outputExists : Int → Bool) (q : Nat → String) :
    Nat → List Int → LoopState → List Submission
  | _, [], _ => []
  | i, t :: ts, st =>
    if i = limit then []
    else if outputExists t then go c limit outputExists q (i + 1) ts st
    else
      let dep := st.slots (i % c)
      let jid := q st.nextJob
      ⟨i, t, dep, jid⟩ ::
        go c limit outputExists q (i + 1) ts
          ⟨fun r => if r = i % c then some jid else st.slots r, st.nextJob + 1⟩

/-- The loop starts with an empty slot dict and no jobs submitted. -/
def initState : LoopState := ⟨fun _ => none, 0⟩

/-- The whole submission loop over the sorted tile list. -/
def mainLoop (tiles : List Int) (limit c : Nat) (outputExists : Int → Bool)
    (q : Nat → String) : List Submission :=
  go c limit outputExists q 0 tiles initState

/-- `int(p.name.split('_')[0])`: parse the leading token (before the
first underscore) of a folder name as an integer; `none` models the
`ValueError` Python `int` raises on a malformed name. -/
def parseTileX (nm : String) : Option Int :=
  (nm.takeWhile (fun ch => ch ≠ '_')).toInt?

/-- `sorted(set(int(p.name.split('_')[0]) for p in folder.iterdir() if p.name != 'ncml'))`:
the deduplicated, sorted tile X values of the folder entries. -/
def tileXsOf (entries : List String) : Option (List Int) :=
  ((entries.filter (fun nm => nm ≠ "ncml")).mapM parseTileX).map
    (fun xs => xs.dedup.insertionSort (fun a b => a ≤ b))

/-- The `main` function of `submit-tile-sync.py`: raise `ValueError` if
the input folder does not exist, otherwise derive the tile values from
the folder entries and run the submission loop. -/
def tileSyncMain (folderExists : Bool) (entries : List String) (limit c : Nat)
    (outputExists : Int → Bool) (q : Nat → String) : Except String (List Submission) :=
  if folderExists = false then
    Except.error "ValueError: Folder does not exist"
  else
    match tileXsOf entries with
    | none => Except.error "ValueError: invalid literal for int"
    | some xs => Except.ok (mainLoop xs limit c outputExists q)

/-- The slot dict after `i` submissions with none skipped: submission
`j` wrote `q j` into slot `j % c`, most recent write winning. -/
def slotsUpd (c : Nat) (q : Nat → String) : Nat → Nat → Option String
  | 0 => fun _ => none
  | i + 1 => fun r => if r = i % c then some (q i) else slotsUpd c q i r

theorem slotsUpd_lookup (c : Nat) (q : Nat → String) :
    ∀ i d, d < c →
      slotsUpd c q i ((i + d) % c) = if c ≤ i + d then some (q (i + d - c)) else none := by
  intro i
  induction i with
  | zero =>
    intro d hd
    rw [if_neg (by omega)]
    rfl
  | succ i ih =>
    intro d hd
    have hkey : i + 1 + d = i + (d + 1) := by omega
    show (if (i + 1 + d) % c = i % c then some (q i)
        else slotsUpd c q i ((i + 1 + d) % c))
      = if c ≤ i + 1 + d then some (q (i + 1 + d - c)) else none
    by_cases hdc : d + 1 = c
    · have hmod : (i + 1 + d) % c = i % c := by
        rw [hkey, hdc]
        exact Nat.add_mod_right i c
      rw [if_pos hmod, if_pos (by omega)]
      have : i + 1 + d - c = i := by omega
      rw [this]
    · have hne : (i + 1 + d) % c ≠ i % c := by
        intro hmod
        have hme : Nat.ModEq c i (i + (d + 1)) := by
          unfold Nat.ModEq
          rw [← hkey, hmod]
        have hdvd : c ∣ (i + (d + 1)) - i :=
          (Nat.modEq_iff_dvd' (by omega)).mp hme
        have : c ∣ d + 1 := by
          have harith : (i + (d + 1)) - i = d + 1 := by omega
          rwa [harith] at hdvd
        have := Nat.le_of_dvd (by omega) this
        omega
      rw [if_neg hne, hkey]
      exact ih (d + 1) (by omega)

theorem bool_eq_false_of_ne_true {b : Bool} (h : ¬ b = true) : b = false := by
  cases b
  · rfl
  · exact absurd rfl h

theorem go_nil (c limit : Nat) (oe : Int → Bool) (q : Nat → String) (i : Nat)
    (st : LoopState) : go c limit oe q i [] st = [] := rfl

theorem go_cons (c limit : Nat) (oe : Int → Bool) (q : Nat → String) (i : Nat)
    (t : Int) (ts : List Int) (sl : Nat → Option String) (k : Nat) :
    go c limit oe q i (t :: ts) ⟨sl, k⟩ =
      if i = limit then []
      else if oe t then go c limit oe q (i + 1) ts ⟨sl, k⟩
      else ⟨i, t, sl (i % c), q k⟩ ::
        go c limit oe q (i + 1) ts ⟨fun r => if r = i % c then some (q k) else sl r, k + 1⟩ := rfl

/-- What the loop produces when no tile is skipped: one submission per
index until `limit` or the list end, slot `i % c` supplying the
dependency `q (i - c)` once `c` submissions have happened. -/
def noskipRun (c limit : Nat) (q : Nat → String) : Nat → List Int → List Submission
  | _, [] => []
  | i, t :: ts =>
    if i = limit then []
    else ⟨i, t, if c ≤ i then some (q (i - c)) else none, q i⟩ :: noskipRun c limit q (i + 1) ts

theorem noskipRun_cons (c limit : Nat) (q : Nat → String) (i : Nat) (t : Int)
    (ts : List Int) :
    noskipRun c limit q i (t :: ts) =
      if i = limit then []
      else ⟨i, t, if c ≤ i then some (q (i - c)) else none, q i⟩ ::
        noskipRun c limit q (i + 1) ts := rfl

theorem go_noskip (c limit : Nat) (oe : Int → Bool) (q : Nat → String) (hc : 0 < c) :
    ∀ (ts : List Int) (i : Nat), (∀ t ∈ ts, oe t = false) →
      go c limit oe q i ts ⟨slotsUpd c q i, i⟩ = noskipRun c limit q i ts := by
  intro ts
  induction ts with
  | nil => intro i _; rfl
  | cons t ts ih =>
    intro i h
    have ht : oe t = false := h t (List.mem_cons_self t ts)
    have hts : ∀ x ∈ ts, oe x = false := fun x hx => h x (List.mem_cons_of_mem t hx)
    rw [go_cons, noskipRun_cons]
    by_cases hil : i = limit
    · rw [if_pos hil, if_pos hil]
    · rw [if_neg hil, if_neg hil, ht, if_neg (by decide : ¬ (false = true))]
      have hdep : slotsUpd c q i (i % c) = if c ≤ i then some (q (i - c)) else none := by
        have h0 := slotsUpd_lookup c q i 0 hc
        simpa using h0
      have hstate : (⟨fun r => if r = i % c then some (q i) else slotsUpd c q i r, i + 1⟩ :
            LoopState) = ⟨slotsUpd c q (i + 1), i + 1⟩ := by
        congr 1
      rw [hdep, hstate, ih (i + 1) hts]

theorem mainLoop_noskip (tiles : List Int) (limit c : Nat) (oe : Int → Bool)
    (q : Nat → String) (hc : 0 < c) (hns : ∀ t ∈ tiles, oe t = false) :
    mainLoop tiles limit c oe q = noskipRun c limit q 0 tiles := by
  have h0 : (initState : LoopState) = ⟨slotsUpd c q 0, 0⟩ := rfl
  unfold mainLoop
  rw [h0]
  exact go_noskip c limit oe q hc tiles 0 hns

theorem noskipRun_length_le_len (c limit : Nat) (q : Nat → String) :
    ∀ (ts : List Int) (i : Nat), (noskipRun c limit q i ts).length ≤ ts.length := by
  intro ts
  induction ts with
  | nil => intro i; exact Nat.le_refl 0
  | cons t ts ih =>
    intro i
    rw [noskipRun_cons]
    by_cases hil : i = limit
    · rw [if_pos hil]; simp
    · rw [if_neg hil]
      simp only [List.length_cons]
      exact Nat.succ_le_succ (ih (i + 1))

theorem noskipRun_length_le_limit (c limit : Nat) (q : Nat → String) :
    ∀ (ts : List Int) (i : Nat), i ≤ limit →
      (noskipRun c limit q i ts).length ≤ limit - i := by
  intro ts
  induction ts with
  | nil => intro i _; exact Nat.zero_le _
  | cons t ts ih =>
    intro i hi
    rw [noskipRun_cons]
    by_cases hil : i = limit
    · rw [if_pos hil]; simp
    · rw [if_neg hil]
      simp only [List.length_cons]
      have := ih (i + 1) (by omega)
      omega

theorem noskipRun_get? (c limit : Nat) (q : Nat → String) :
    ∀ (ts : List Int) (i p : Nat), i + p < limit →
      (noskipRun c limit q i ts).get? p
        = (ts.get? p).map (fun t =>
            (⟨i + p, t, if c ≤ i + p then some (q (i + p - c)) else none, q (i + p)⟩ :
              Submission)) := by
  intro ts
  induction ts with
  | nil => intro i p _; rfl
  | cons t ts ih =>
    intro i p h
    have hil : i ≠ limit := by omega
    rw [noskipRun_cons, if_neg hil]
    cases p with
    | zero => rfl
    | succ p =>
      have e : i + 1 + p = i + (p + 1) := by omega
      simp only [List.get?_cons_succ]
      rw [ih (i + 1) p (by omega), e]

/-- C5: in a run with no skipped tile (and a positive concurrency limit,
since Python raises on `i % 0`), the submission at loop index `i < c`
passes no dependency, and the submission at index `i ≥ c` passes as
`require_job_id` exactly the job id returned by the submission at index
`i - c` (slot `i mod c`), which `submit_job` turns into the scheduler
arguments `-W depend=afterok:<that id>`. -/
theorem tile_sync_dependency_chain
    (tiles : List Int) (limit c : Nat) (oe : Int → Bool) (q : Nat → String)
    (hc : 0 < c) (hns : ∀ t ∈ tiles, oe t = false)
    (i : Nat) (hi : i < (mainLoop tiles limit c oe q).length)
    (hic : i - c < (mainLoop tiles limit c oe q).length) :
    ((mainLoop tiles limit c oe q).get ⟨i, hi⟩).index = i
      ∧ (i < c → ((mainLoop tiles limit c oe q).get ⟨i, hi⟩).dep = none
            ∧ dependArgs ((mainLoop tiles limit c oe q).get ⟨i, hi⟩).dep = [])
      ∧ (c ≤ i →
            ((mainLoop tiles limit c oe q).get ⟨i, hi⟩).dep
              = some (((mainLoop tiles limit c oe q).get ⟨i - c, hic⟩).jobId)
            ∧ (((mainLoop tiles limit c oe q).get ⟨i - c, hic⟩).jobId ≠ "" →
                dependArgs ((mainLoop tiles limit c oe q).get ⟨i, hi⟩).dep
                  = ["-W", "depend=afterok:"
                      ++ pyStrip pyWhitespace
                        (((mainLoop tiles limit c oe q).get ⟨i - c, hic⟩).jobId)])) := by
  have hml : mainLoop tiles limit c oe q = noskipRun c limit q 0 tiles :=
    mainLoop_noskip tiles limit c oe q hc hns
  have hcomp : ∀ j (hj : j < (mainLoop tiles limit c oe q).length),
      ((mainLoop tiles limit c oe q).get ⟨j, hj⟩).index = j
        ∧ ((mainLoop tiles limit c oe q).get ⟨j, hj⟩).dep
            = (if c ≤ j then some (q (j - c)) else none)
        ∧ ((mainLoop tiles limit c oe q).get ⟨j, hj⟩).jobId = q j := by
    intro j hj
    have hjlim : j < limit := by
      have h1 : (mainLoop tiles limit c oe q).length ≤ limit - 0 := by
        rw [hml]
        exact noskipRun_length_le_limit c limit q tiles 0 (Nat.zero_le _)
      omega
    have hjts : j < tiles.length := by
      have h1 : (mainLoop tiles limit c oe q).length ≤ tiles.length := by
        rw [hml]
        exact noskipRun_length_le_len c limit q tiles 0
      omega
    have h1 : (mainLoop tiles limit c oe q).get? j
        = some ((mainLoop tiles limit c oe q).get ⟨j, hj⟩) := List.get?_eq_get hj
    have h2 : (mainLoop tiles limit c oe q).get? j
        = (tiles.get? j).map (fun t =>
            (⟨0 + j, t, if c ≤ 0 + j then some (q (0 + j - c)) else none, q (0 + j)⟩ :
              Submission)) := by
      rw [hml]
      exact noskipRun_get? c limit q tiles 0 j (by omega)
    have h3 := h1.symm.trans h2
    rw [List.get?_eq_get hjts] at h3
    simp only [Option.map_some', Option.some.injEq] at h3
    refine ⟨?_, ?_, ?_⟩ <;> rw [h3] <;> simp
  obtain ⟨hidx, hdep, hjid⟩ := hcomp i hi
  obtain ⟨hidx2, hdep2, hjid2⟩ := hcomp (i - c) hic
  refine ⟨hidx, ?_, ?_⟩
  · intro hlt
    have hdn : ((mainLoop tiles limit c oe q).get ⟨i, hi⟩).dep = none := by
      rw [hdep, if_neg (by omega)]
    exact ⟨hdn, by rw [hdn]; rfl⟩
  · intro hge
    have hds : ((mainLoop tiles limit c oe q).get ⟨i, hi⟩).dep = some (q (i - c)) := by
      rw [hdep, if_pos hge]
    refine ⟨by rw [hds, hjid2], ?_⟩
    intro hne
    rw [hjid2] at hne
    rw [hds, hjid2]
    simp [dependArgs, hne]

/-- Demonstration inputs for the witnesses: ten tiles, never-existing and
tile-2-exists output oracles, and a job-id oracle. -/
def demoTiles : List Int := [10, 11, 12, 13, 14, 15, 16, 17, 18, 19]

def demoNoOe : Int → Bool := fun _ => false

def demoSkipOe : Int → Bool := fun t => t == 2

def demoQ : Nat → String := fun k => "J" ++ toString k

/-- C5 witness: with `concurrency_limit = 4` and ten no-skip
submissions, index 4 depends on the job id of index 0, index 5 on the
job id of index 1, and index 3 has no dependency. -/
theorem tile_sync_dependency_chain_witness :
    ((mainLoop demoTiles 12 4 demoNoOe demoQ).get ⟨4, by decide⟩).dep
        = some (((mainLoop demoTiles 12 4 demoNoOe demoQ).get ⟨0, by decide⟩).jobId)
      ∧ ((mainLoop demoTiles 12 4 demoNoOe demoQ).get ⟨5, by decide⟩).dep
        = some (((mainLoop demoTiles 12 4 demoNoOe demoQ).get ⟨1, by decide⟩).jobId)
      ∧ ((mainLoop demoTiles 12 4 demoNoOe demoQ).get ⟨3, by decide⟩).dep = none := by
  refine ⟨?_, ?_, ?_⟩
  · exact ((tile_sync_dependency_chain demoTiles 12 4 demoNoOe demoQ (by decide)
      (fun t _ => rfl) 4 (by decide) (by decide)).2.2 (by decide)).1
  · exact ((tile_sync_dependency_chain demoTiles 12 4 demoNoOe demoQ (by decide)
      (fun t _ => rfl) 5 (by decide) (by decide)).2.2 (by decide)).1
  · exact ((tile_sync_dependency_chain demoTiles 12 4 demoNoOe demoQ (by decide)
      (fun t _ => rfl) 3 (by decide) (by decide)).2.1 (by decide)).1

theorem go_mem_not_skipped (c limit : Nat) (oe : Int → Bool) (q : Nat → String) :
    ∀ (ts : List Int) (i : Nat) (st : LoopState) (s : Submission),
      s ∈ go c limit oe q i ts st → oe s.tileX = false := by
  intro ts
  induction ts with
  | nil => intro i st s hs; rw [go_nil] at hs; exact absurd hs (List.not_mem_nil s)
  | cons t ts ih =>
    intro i st s hs
    obtain ⟨sl, k⟩ := st
    rw [go_cons] at hs
    by_cases hil : i = limit
    · rw [if_pos hil] at hs
      exact absurd hs (List.not_mem_nil s)
    · rw [if_neg hil] at hs
      by_cases ht : oe t = true
      · rw [if_pos ht] at hs
        exact ih (i + 1) ⟨sl, k⟩ s hs
      · rw [if_neg ht] at hs
        rcases List.mem_cons.mp hs with h | h
        · rw [h]
          exact bool_eq_false_of_ne_true ht
        · exact ih (i + 1) _ s h

/-- C6: a tile whose expected output file already exists produces no
submission — the loop continues with the very same state (slot dict and
job counter untouched), so slot reuse behaves exactly as if the skipped
tile were not in the list; and consequently no recorded submission is
ever for a tile whose output existed. -/
theorem tile_sync_skip_frame :
    (∀ (c limit : Nat) (oe : Int → Bool) (q : Nat → String) (i : Nat) (t : Int)
        (ts : List Int) (st : LoopState), oe t = true → i ≠ limit →
        go c limit oe q i (t :: ts) st = go c limit oe q (i + 1) ts st)
      ∧ (∀ (tiles : List Int) (limit c : Nat) (oe : Int → Bool) (q : Nat → String)
          (s : Submission), s ∈ mainLoop tiles limit c oe q → oe s.tileX = false) := by
  constructor
  · intro c limit oe q i t ts st ht hil
    obtain ⟨sl, k⟩ := st
    rw [go_cons, if_neg hil, if_pos ht]
  · intro tiles limit c oe q s hs
    exact go_mem_not_skipped c limit oe q tiles 0 initState s hs

/-- C6 witness: skipping tile 2 at index 1 leaves the loop state
untouched, and in the run over `[1, 2, 3]` the first recorded
submission is for a tile without existing output. -/
theorem tile_sync_skip_frame_witness :
    (go 4 12 demoSkipOe demoQ 1 ((2 : Int) :: [3]) initState
        = go 4 12 demoSkipOe demoQ 2 [3] initState)
      ∧ demoSkipOe ((mainLoop [1, 2, 3] 12 4 demoSkipOe demoQ).get ⟨0, by decide⟩).tileX
          = false := by
  constructor
  · exact tile_sync_skip_frame.1 4 12 demoSkipOe demoQ 1 2 [3] initState (by decide) (by decide)
  · exact tile_sync_skip_frame.2 [1, 2, 3] 12 4 demoSkipOe demoQ _
      (List.get_mem (mainLoop [1, 2, 3] 12 4 demoSkipOe demoQ) 0 (by decide))

theorem go_length (c limit : Nat) (oe : Int → Bool) (q : Nat → String) :
    ∀ (ts : List Int) (i : Nat) (st : LoopState), i ≤ limit →
      (go c limit oe q i ts st).length
        = ((ts.take (limit - i)).filter (fun t => !oe t)).length := by
  intro ts
  induction ts with
  | nil => intro i st _; simp [go_nil]
  | cons t ts ih =>
    intro i st hi
    obtain ⟨sl, k⟩ := st
    rw [go_cons]
    by_cases hil : i = limit
    · rw [if_pos hil]
      simp [hil]
    · have hsub : limit - i = (limit - (i + 1)) + 1 := by omega
      rw [if_neg hil, hsub, List.take_succ_cons, List.filter_cons]
      by_cases ht : oe t = true
      · rw [if_pos ht, ht]
        simpa using ih (i + 1) ⟨sl, k⟩ (by omega)
      · have hb : oe t = false := bool_eq_false_of_ne_true ht
        rw [if_neg ht, hb]
        have hrec := ih (i + 1)
          ⟨fun r => if r = i % c then some (q k) else sl r, k + 1⟩ (by omega)
        simp [List.length_cons, hrec]

/-- C10: the `submit_limit` cap counts tiles considered, not jobs
submitted — the loop stops when the enumeration index reaches the cap,
so the submissions are exactly the non-skipped tiles among the first
`submit_limit` of the sorted list; concretely, over tiles
`[1, 2, 3, 4, 5]` with cap 3 and tile 2 skipped, only 2 jobs are
submitted (strictly fewer than the cap) while unprocessed tiles 4 and 5
(whose outputs do not exist) remain untouched. -/
theorem tile_sync_submit_limit_counts_considered :
    (∀ (tiles : List Int) (limit c : Nat) (oe : Int → Bool) (q : Nat → String), 0 < c →
        (mainLoop tiles limit c oe q).length
          = ((tiles.take limit).filter (fun t => !oe t)).length)
      ∧ (mainLoop [1, 2, 3, 4, 5] 3 4 demoSkipOe demoQ).length = 2
      ∧ (mainLoop [1, 2, 3, 4, 5] 3 4 demoSkipOe demoQ).length < 3
      ∧ (∀ s ∈ mainLoop [1, 2, 3, 4, 5] 3 4 demoSkipOe demoQ, s.tileX ≠ 4 ∧ s.tileX ≠ 5)
      ∧ demoSkipOe 4 = false ∧ demoSkipOe 5 = false := by
  refine ⟨?_, by decide, by decide, by decide, by decide, by decide⟩
  intro tiles limit c oe q _hc
  have := go_length c limit oe q tiles 0 initState (Nat.zero_le _)
  simpa using this

/-- C10 witness: the general cap equation instantiated at a concrete
no-skip run of two tiles under a cap of five. -/
theorem tile_sync_submit_limit_counts_considered_witness :
    0 < 3
      ∧ (mainLoop [(7 : Int), 8] 5 3 demoNoOe demoQ).length
        = (([(7 : Int), 8].take 5).filter (fun t => !demoNoOe t)).length :=
  ⟨by decide,
    tile_sync_submit_limit_counts_considered.1 [7, 8] 5 3 demoNoOe demoQ (by decide)⟩

/-- C9: if the input folder does not exist, `main` raises `ValueError`
immediately — a configuration error — and no scheduler submission of
any kind occurs. -/
theorem tile_sync_missing_folder_fails
    (entries : List String) (limit c : Nat) (oe : Int → Bool) (q : Nat → String) :
    tileSyncMain false entries limit c oe q
        = Except.error "ValueError: Folder does not exist"
      ∧ ∀ subs, tileSyncMain false entries limit c oe q ≠ Except.ok subs := by
  constructor
  · rfl
  · intro subs h
    exact absurd h (by simp [tileSyncMain])

/-- C8: `submit_job` does not return the bare job identifier when the
command output has a trailing newline: `strip(' \\n')` strips the
characters space, backslash and the letter `n` — not the newline — so
the newline is retained; and an identifier that itself ends in `n`
loses characters.  (The intended `strip(' \n')` would confirm the
claim; the doubled backslash is the slip.) -/
theorem submit_job_strip_retains_newline :
    qsubOutputJobId "1234567.r-man2\n" = "1234567.r-man2\n"
      ∧ "1234567.r-man2\n" ≠ "1234567.r-man2"
      ∧ qsubOutputJobId "123.broken" = "123.broke" := by
  refine ⟨by decide, by decide, by decide⟩

end DEA
